import Mathlib

/-!
Verification of the streaming chat client core of `class-rag-pro`
(`frontend/utils/api.py`, `frontend/utils/session.py`,
`frontend/components/chat_interface.py`).

Modelling conventions:
  * Python strings consumed by the line decoder are modelled as `List Char`;
    strings produced and stored are Lean `String`.
  * Parsed JSON values (the results of `json.loads`) and, more generally, the
    Python values stored in message dictionaries are modelled by the inductive
    type `Json`; Python `None` is `Json.null`.
  * `json.loads` is modelled by `json_loads`, a fuel-based recursive-descent
    parser returning `Option Json` (`none` models `json.JSONDecodeError`).
    JSON number literals are modelled as integers: no property below depends
    on fractional or exponent number forms (`NaN`/`Infinity` likewise omitted).
  * Python dictionaries are association lists; lookup takes the last binding
    for a key, as a Python dict built left to right would.
  * Code that can raise is modelled in `Except String`, the error string
    standing for `str(exception)`.
  * Streamlit UI calls (`st.markdown`, `st.container`, buttons, ...) carry no
    session state relevant to the properties below and are treated as no-ops.
-/

/-- JSON values as produced by `json.loads`; `null` also stands for Python
`None` where the code stores `None` in the same field. -/
inductive Json where
  | null : Json
  | bool (b : Bool) : Json
  | num (n : Int) : Json
  | str (s : String) : Json
  | arr (xs : List Json) : Json
  | obj (kvs : List (String × Json)) : Json

/-- Python `dict.get(k)`: the value of the last binding of `k`, or `none`
(Python `None`) when the key is absent. -/
def pyGet (kvs : List (String × Json)) (k : String) : Option Json :=
  (kvs.reverse.find? (fun p => p.1 == k)).map (fun p => p.2)

/-- Python `dict.get(k, d)`. -/
def pyGetD (kvs : List (String × Json)) (k : String) (d : Json) : Json :=
  (pyGet kvs k).getD d

/-- Python truthiness of a parsed JSON value (`bool(x)`). -/
def jsonTruthy : Json → Bool
  | Json.null => false
  | Json.bool b => b
  | Json.num n => n != 0
  | Json.str s => !s.isEmpty
  | Json.arr xs => !xs.isEmpty
  | Json.obj kvs => !kvs.isEmpty

/-- Python type name of a parsed JSON value, as it appears in exception
messages such as TypeError's. -/
def pyTypeName : Json → String
  | Json.null => "NoneType"
  | Json.bool _ => "bool"
  | Json.num _ => "int"
  | Json.str _ => "str"
  | Json.arr _ => "list"
  | Json.obj _ => "dict"

mutual

/-- Python `repr` of a parsed JSON value. -/
def pyRepr : Json → String
  | Json.null => "None"
  | Json.bool true => "True"
  | Json.bool false => "False"
  | Json.num n => toString n
  | Json.str s => "'" ++ s ++ "'"
  | Json.arr xs => "[" ++ pyReprList xs ++ "]"
  | Json.obj kvs => "\x7b" ++ pyReprMembers kvs ++ "\x7d"

/-- Comma-separated `repr`s of the elements of a Python list. -/
def pyReprList : List Json → String
  | [] => ""
  | [x] => pyRepr x
  | x :: y :: xs => pyRepr x ++ ", " ++ pyReprList (y :: xs)

/-- Comma-separated `repr`s of the members of a Python dict. -/
def pyReprMembers : List (String × Json) → String
  | [] => ""
  | [(k, v)] => "'" ++ k ++ "': " ++ pyRepr v
  | (k, v) :: y :: xs => "'" ++ k ++ "': " ++ pyRepr v ++ ", " ++ pyReprMembers (y :: xs)

end

/-- Python `str` of a parsed JSON value (as used by an f-string). -/
def pyStr : Json → String
  | Json.str s => s
  | j => pyRepr j

/-- Drop JSON whitespace. -/
def skipWs : List Char → List Char
  | c :: cs => if c = ' ' ∨ c = '\t' ∨ c = '\n' ∨ c = '\r' then skipWs cs else c :: cs
  | [] => []

/-- Value of a hex digit. -/
def hexVal? (c : Char) : Option Nat :=
  if '0' ≤ c ∧ c ≤ '9' then some (c.toNat - 48)
  else if 'a' ≤ c ∧ c ≤ 'f' then some (c.toNat - 87)
  else if 'A' ≤ c ∧ c ≤ 'F' then some (c.toNat - 55)
  else none

/-- One-character JSON string escapes. -/
def escChar? (c : Char) : Option Char :=
  if c = '"' then some '"'
  else if c = '\\' then some '\\'
  else if c = '/' then some '/'
  else if c = 'n' then some '\n'
  else if c = 't' then some '\t'
  else if c = 'r' then some '\r'
  else if c = 'b' then some (Char.ofNat 8)
  else if c = 'f' then some (Char.ofNat 12)
  else none

/-- Parse the remainder of a JSON string literal, after the opening quote.
Returns the decoded characters and the input following the closing quote.
Unpaired `\u` surrogates are out of scope (no property depends on them). -/
def parseStringRest : List Char → Option (List Char × List Char)
  | [] => none
  | '"' :: rest => some ([], rest)
  | '\\' :: 'u' :: a :: b :: c :: d :: rest =>
    match hexVal? a, hexVal? b, hexVal? c, hexVal? d with
    | some ha, some hb, some hc, some hd =>
      match parseStringRest rest with
      | some (s, r) => some (Char.ofNat (((ha * 16 + hb) * 16 + hc) * 16 + hd) :: s, r)
      | none => none
    | _, _, _, _ => none
  | '\\' :: e :: rest =>
    match escChar? e with
    | some c =>
      match parseStringRest rest with
      | some (s, r) => some (c :: s, r)
      | none => none
    | none => none
  | c :: rest =>
    if c.toNat < 32 then none
    else
      match parseStringRest rest with
      | some (s, r) => some (c :: s, r)
      | none => none

/-- Split off a maximal run of leading decimal digits. -/
def takeDigits : List Char → (List Char × List Char)
  | c :: cs =>
    if c.isDigit then
      let (ds, r) := takeDigits cs
      (c :: ds, r)
    else ([], c :: cs)
  | [] => ([], [])

/-- Numeric value of a digit run. -/
def digitsToNat (ds : List Char) : Nat :=
  ds.foldl (fun n c => n * 10 + (c.toNat - 48)) 0

/-- Parse a JSON integer literal (optional minus sign, then digits). -/
def parseIntLit : List Char → Option (Int × List Char)
  | '-' :: cs =>
    match takeDigits cs with
    | ([], _) => none
    | (ds, r) => some (-(digitsToNat ds : Int), r)
  | cs =>
    match takeDigits cs with
    | ([], _) => none
    | (ds, r) => some ((digitsToNat ds : Int), r)

mutual

/-- Parse one JSON value; `fuel` bounds recursion depth and element count. -/
def parseValue : Nat → List Char → Option (Json × List Char)
  | 0, _ => none
  | fuel + 1, cs =>
    match skipWs cs with
    | 'n' :: 'u' :: 'l' :: 'l' :: rest => some (Json.null, rest)
    | 't' :: 'r' :: 'u' :: 'e' :: rest => some (Json.bool true, rest)
    | 'f' :: 'a' :: 'l' :: 's' :: 'e' :: rest => some (Json.bool false, rest)
    | '"' :: rest =>
      match parseStringRest rest with
      | some (s, r) => some (Json.str (String.mk s), r)
      | none => none
    | '[' :: rest => parseArrayRest fuel rest []
    | '\x7b' :: rest => parseObjRest fuel rest []
    | cs1 =>
      match parseIntLit cs1 with
      | some (n, r) => some (Json.num n, r)
      | none => none

/-- Parse the remainder of a JSON array, after `[` or after a separating
comma; `acc` holds the elements parsed so far. -/
def parseArrayRest : Nat → List Char → List Json → Option (Json × List Char)
  | 0, _, _ => none
  | fuel + 1, cs, acc =>
    match acc, skipWs cs with
    | [], ']' :: rest => some (Json.arr [], rest)
    | _, cs1 =>
      match parseValue fuel cs1 with
      | none => none
      | some (v, r) =>
        match skipWs r with
        | ',' :: rest => parseArrayRest fuel rest (acc ++ [v])
        | ']' :: rest => some (Json.arr (acc ++ [v]), rest)
        | _ => none

/-- Parse the remainder of a JSON object, after `\x7b` or after a separating
comma; `acc` holds the members parsed so far. -/
def parseObjRest : Nat → List Char → List (String × Json) → Option (Json × List Char)
  | 0, _, _ => none
  | fuel + 1, cs, acc =>
    match acc, skipWs cs with
    | [], '\x7d' :: rest => some (Json.obj [], rest)
    | _, cs1 =>
      match cs1 with
      | '"' :: r0 =>
        match parseStringRest r0 with
        | none => none
        | some (k, r1) =>
          match skipWs r1 with
          | ':' :: r2 =>
            match parseValue fuel r2 with
            | none => none
            | some (v, r3) =>
              match skipWs r3 with
              | ',' :: rest => parseObjRest fuel rest (acc ++ [(String.mk k, v)])
              | '\x7d' :: rest => some (Json.obj (acc ++ [(String.mk k, v)]), rest)
              | _ => none
          | _ => none
      | _ => none

end

/-- Model of Python `json.loads`: parse one JSON document, requiring only
whitespace to remain; `none` models a raised `json.JSONDecodeError`. -/
def json_loads (cs : List Char) : Option Json :=
  match parseValue (cs.length + 1) cs with
  | some (j, rest) => if (skipWs rest).isEmpty then some j else none
  | none => none

example : json_loads "\"hello\"".toList = some (Json.str "hello") := rfl
example : json_loads "[5]".toList = some (Json.arr [Json.num 5]) := rfl
example : json_loads "[]".toList = some (Json.arr []) := rfl
example : json_loads "\x7bnot json".toList = none := rfl
example : json_loads "null".toList = some Json.null := rfl
example : json_loads "-12".toList = some (Json.num (-12)) := rfl
example :
    json_loads "\x7b\"type\":\"sources\",\"data\":\x7b\"nodes\":[1,2]\x7d\x7d".toList
      = some (Json.obj [("type", Json.str "sources"),
          ("data", Json.obj [("nodes", Json.arr [Json.num 1, Json.num 2])])]) := rfl

/-- Result dictionary of `process_streaming_line`
(`frontend/utils/api.py`): the Python dict
`\x7b"type": t, "data": d\x7d` with `t` one of `None`, `"text"`, `"data"`,
`"error"`, and `d` a parsed JSON value or `None` (modelled `Json.null`). -/
structure StreamResult where
  type : Option String
  data : Json

/-- First-two-character test, modelling `line.startswith(p)` for the
two-character prefixes `"0:"`, `"8:"`, `"3:"` used by the decoder. -/
def startsWith2 (a b : Char) : List Char → Bool
  | c :: d :: _ => a == c && b == d
  | _ => false

/-- Model of `process_streaming_line` (`frontend/utils/api.py`, lines
92-131): classify one stream line by its prefix and parse its payload;
every `json.JSONDecodeError` is caught and mapped to an error result. -/
def process_streaming_line (line : List Char) : StreamResult :=
  if line.isEmpty then ⟨none, Json.null⟩
  else if startsWith2 '0' ':' line then
    match json_loads (line.drop 2) with
    | some text_chunk => ⟨some "text", text_chunk⟩
    | none => ⟨some "error", Json.str "Failed to parse text chunk"⟩
  else if startsWith2 '8' ':' line then
    match json_loads (line.drop 2) with
    | some (Json.arr (x :: _)) => ⟨some "data", x⟩
    | some _ => ⟨some "data", Json.null⟩
    | none => ⟨some "error", Json.str "Failed to parse data chunk"⟩
  else if startsWith2 '3' ':' line then
    match json_loads (line.drop 2) with
    | some err => ⟨some "error", err⟩
    | none => ⟨some "error", Json.str "Failed to parse error chunk"⟩
  else ⟨none, Json.null⟩

/-- Accumulation state of `render_streaming_message`
(`frontend/components/chat_interface.py`, lines 36-39): the local variables
`tools`, `sources`, `suggested_questions`, `content`. `sources` and
`suggested_questions` hold whatever Python value the last relevant
side-data event carried, hence `Json`. -/
structure AggState where
  tools : List Json
  sources : Json
  suggested_questions : Json
  content : String

/-- Initial accumulation state (`tools = []`, `sources = []`,
`suggested_questions = []`, `content = ""`). -/
def aggStart : AggState :=
  { tools := [], sources := Json.arr [], suggested_questions := Json.arr [], content := "" }

/-- One iteration of the event dispatch in `render_streaming_message`
(`chat_interface.py`, lines 59-82), on an already-decoded line. Errors model
the exceptions Python would raise there: `content += data` on a non-`str`
(TypeError) and `.get` on a non-`dict` (AttributeError). -/
def render_step (st : AggState) (r : StreamResult) : Except String AggState :=
  if r.type = some "text" then
    match r.data with
    | Json.str s => Except.ok { st with content := st.content ++ s }
    | d => Except.error ("can only concatenate str (not \"" ++ pyTypeName d ++ "\") to str")
  else if r.type = some "data" ∧ jsonTruthy r.data then
    match r.data with
    | Json.obj kvs =>
      match pyGet kvs "type" with
      | some (Json.str t) =>
        if t = "events" then
          Except.ok { st with tools := st.tools ++ [pyGetD kvs "data" (Json.obj [])] }
        else if t = "sources" then
          match pyGetD kvs "data" (Json.obj []) with
          | Json.obj kvs2 => Except.ok { st with sources := pyGetD kvs2 "nodes" (Json.arr []) }
          | d => Except.error ("'" ++ pyTypeName d ++ "' object has no attribute 'get'")
        else if t = "suggested_questions" then
          Except.ok { st with suggested_questions := pyGetD kvs "data" (Json.arr []) }
        else if t = "tools" then
          Except.ok { st with tools := st.tools ++ [pyGetD kvs "data" (Json.obj [])] }
        else Except.ok st
      | _ => Except.ok st
    | d => Except.error ("'" ++ pyTypeName d ++ "' object has no attribute 'get'")
  else if r.type = some "error" then
    Except.ok { st with content := "Error: " ++ pyStr r.data }
  else Except.ok st

/-- The streaming loop of `render_streaming_message` (`chat_interface.py`,
lines 52-82): skip empty lines, decode, dispatch; an exception aborts the
loop and propagates. The UI placeholder updates are no-ops on this state. -/
def render_streaming_message (lines : List (List Char)) : Except String AggState :=
  lines.foldlM
    (fun st line =>
      if line.isEmpty then Except.ok st else render_step st (process_streaming_line line))
    aggStart

/-- The dictionary returned by `render_streaming_message` (lines 85-91),
which `send_message` (lines 176-182) then stores unchanged via
`add_message("assistant", content, sources=..., tools=...,
suggested_questions=...)`. -/
def final_message (st : AggState) : List (String × Json) :=
  [("role", Json.str "assistant"),
   ("content", Json.str st.content),
   ("sources", st.sources),
   ("tools", Json.arr st.tools),
   ("suggested_questions", st.suggested_questions)]

/-- A Python dict used as a message record. -/
abbrev PyDict := List (String × Json)

/-- Session state (`frontend/utils/session.py`): the `st.session_state`
fields the chat core reads and writes. `chat_config` and `next_question`
play no part in the properties below. -/
structure SessionState where
  messages : List PyDict
  files : List Json
  is_processing : Bool

/-- Model of `add_message` (`session.py`, lines 26-36):
`\x7b"role": role, "content": content, **kwargs\x7d` appended to history. -/
def add_message (st : SessionState) (role : String) (content : String)
    (kwargs : PyDict) : SessionState :=
  { st with messages :=
      st.messages ++ [[("role", Json.str role), ("content", Json.str content)] ++ kwargs] }

/-- Model of `start_processing` (`session.py`, lines 74-78). -/
def start_processing (st : SessionState) : SessionState :=
  { st with is_processing := true }

/-- Model of `end_processing` (`session.py`, lines 80-84). -/
def end_processing (st : SessionState) : SessionState :=
  { st with is_processing := false }

/-- Model of `is_processing` (`session.py`, lines 86-93). -/
def is_processing (st : SessionState) : Bool :=
  st.is_processing

/-- One history entry mapped to `\x7b"role": ..., "content": ...\x7d` as in
the payload comprehension (`chat_interface.py`, lines 116-119). Every
history entry carries both keys, so the `Json.null` default is never used. -/
def outbound_message (msg : PyDict) : PyDict :=
  [("role", pyGetD msg "role" Json.null), ("content", pyGetD msg "content" Json.null)]

/-- The annotation list attached for pending files (`chat_interface.py`,
lines 124-127). -/
def annot_value (files : List Json) : Json :=
  Json.arr [Json.obj [("type", Json.str "document_file"),
    ("data", Json.obj [("files", Json.arr files)])]]

/-- The outbound payload's `"messages"` list (`chat_interface.py`, lines
114-127): the full history as role/content pairs, with the annotation set
on the last entry when pending files exist. The `[]` arm models the
`IndexError` of `[-1]` on an empty history, which cannot occur because the
user message was just appended. -/
def build_payload (history : List PyDict) (files : List Json) : List PyDict :=
  if files.isEmpty then history.map outbound_message
  else
    match history.map outbound_message with
    | [] => []
    | _ :: _ =>
      (history.map outbound_message).dropLast
        ++ [(history.map outbound_message).getLastD []
              ++ [("annotations", annot_value files)]]

/-- Outcome of the transport interaction inside the `with requests.post`
block: either the request itself fails (connection error or
`raise_for_status`, before any line is processed), or a stream of lines is
delivered, possibly ending in a mid-stream transport exception whose
description is `interrupt`. -/
inductive Outcome where
  | httpError (desc : String)
  | stream (lines : List (List Char)) (interrupt : Option String)

/-- Model of `send_message` (`chat_interface.py`, lines 93-192): mark
processing, append the user message, build the payload (clearing pending
files), run the streaming turn, append exactly one assistant message —
the aggregated one on success, an `"Error: " + str(e)` one when any
exception was raised — and release the processing flag in `finally`.
Pure UI calls are no-ops; `st.button` returns `False` within a run, so the
suggested-question block raises nothing relevant to this state. -/
def send_message (st : SessionState) (message : String) (outcome : Outcome) : SessionState :=
  let st1 := start_processing st
  let st2 := add_message st1 "user" message []
  let _payload := build_payload st2.messages st2.files
  let st3 := if st2.files.isEmpty then st2 else { st2 with files := [] }
  end_processing <|
    match outcome with
    | Outcome.httpError desc => add_message st3 "assistant" ("Error: " ++ desc) []
    | Outcome.stream lines interrupt =>
      match render_streaming_message lines with
      | Except.error e => add_message st3 "assistant" ("Error: " ++ e) []
      | Except.ok agg =>
        match interrupt with
        | some desc => add_message st3 "assistant" ("Error: " ++ desc) []
        | none =>
          add_message st3 "assistant" agg.content
            [("sources", agg.sources), ("tools", Json.arr agg.tools),
             ("suggested_questions", agg.suggested_questions)]

/-- Characterization of the decoder on `0:`-prefixed lines. -/
theorem decode_zero (s : List Char) :
    process_streaming_line ('0' :: ':' :: s)
      = match json_loads s with
        | some j => (⟨some "text", j⟩ : StreamResult)
        | none => ⟨some "error", Json.str "Failed to parse text chunk"⟩ := rfl

/-- Characterization of the decoder on `8:`-prefixed lines. -/
theorem decode_eight (s : List Char) :
    process_streaming_line ('8' :: ':' :: s)
      = match json_loads s with
        | some (Json.arr (x :: _)) => (⟨some "data", x⟩ : StreamResult)
        | some _ => ⟨some "data", Json.null⟩
        | none => ⟨some "error", Json.str "Failed to parse data chunk"⟩ := rfl

/-- Characterization of the decoder on `3:`-prefixed lines. -/
theorem decode_three (s : List Char) :
    process_streaming_line ('3' :: ':' :: s)
      = match json_loads s with
        | some err => (⟨some "error", err⟩ : StreamResult)
        | none => ⟨some "error", Json.str "Failed to parse error chunk"⟩ := rfl

/-- C4: the line decoder is total and deterministic — being a function of
the line, it yields exactly one result for every input and raises nothing;
moreover every result is one of the four shapes the aggregator dispatches
on (`None`, `"text"`, `"data"`, `"error"`). -/
theorem c4_decoder_total (s : List Char) :
    (∃! r, process_streaming_line s = r) ∧
    ((process_streaming_line s).type = none ∨
     (process_streaming_line s).type = some "text" ∨
     (process_streaming_line s).type = some "data" ∨
     (process_streaming_line s).type = some "error") := by
  refine ⟨⟨process_streaming_line s, rfl, fun y hy => hy.symm⟩, ?_⟩
  unfold process_streaming_line
  repeat' split
  all_goals simp

/-- C5: prefix mapping of the decoder — a `0:` line with a JSON-string
payload yields a text result with that string; a `3:` line yields an error
result carrying the parsed payload; an unknown prefix such as `9:` yields
the unrecognized result; and a known prefix with invalid JSON yields an
error result with a parse-failure indicator instead of raising. -/
theorem c5_prefix_mapping :
    (∀ s str, json_loads s = some (Json.str str) →
      process_streaming_line ('0' :: ':' :: s) = ⟨some "text", Json.str str⟩)
  ∧ (∀ s j, json_loads s = some j →
      process_streaming_line ('3' :: ':' :: s) = ⟨some "error", j⟩)
  ∧ (process_streaming_line ("9:xyz".toList) = ⟨none, Json.null⟩)
  ∧ (∀ s, json_loads s = none →
      process_streaming_line ('0' :: ':' :: s)
          = ⟨some "error", Json.str "Failed to parse text chunk"⟩
      ∧ process_streaming_line ('8' :: ':' :: s)
          = ⟨some "error", Json.str "Failed to parse data chunk"⟩
      ∧ process_streaming_line ('3' :: ':' :: s)
          = ⟨some "error", Json.str "Failed to parse error chunk"⟩) := by
  refine ⟨fun s str hp => ?_, fun s j hp => ?_, rfl, fun s hp => ⟨?_, ?_, ?_⟩⟩
  · rw [decode_zero, hp]
  · rw [decode_three, hp]
  · rw [decode_zero, hp]
  · rw [decode_eight, hp]
  · rw [decode_three, hp]

/-- Witness for C5 at the concrete lines of the spec's examples. -/
theorem c5_prefix_mapping_witness :
    json_loads ("\"hello\"".toList) = some (Json.str "hello")
  ∧ process_streaming_line ('0' :: ':' :: "\"hello\"".toList)
      = ⟨some "text", Json.str "hello"⟩
  ∧ json_loads ("\"boom\"".toList) = some (Json.str "boom")
  ∧ process_streaming_line ('3' :: ':' :: "\"boom\"".toList)
      = ⟨some "error", Json.str "boom"⟩
  ∧ json_loads ("\x7bnot json".toList) = none
  ∧ process_streaming_line ('0' :: ':' :: "\x7bnot json".toList)
      = ⟨some "error", Json.str "Failed to parse text chunk"⟩ :=
  ⟨rfl, c5_prefix_mapping.1 _ "hello" rfl,
   rfl, c5_prefix_mapping.2.1 _ (Json.str "boom") rfl,
   rfl, (c5_prefix_mapping.2.2.2 ("\x7bnot json".toList) (by rfl)).1⟩

/-- C6 counterexample: the line `8:[5]` has a non-empty array payload whose
first element `5` is malformed (not an object with type/data fields), yet
the decoder returns a side-data result carrying `5`, not a null payload, so
the claim is false as stated. -/
theorem c6_nonempty_malformed_counterexample :
    process_streaming_line ("8:[5]".toList) = ⟨some "data", Json.num 5⟩
  ∧ Json.num 5 ≠ Json.null :=
  ⟨rfl, fun h => Json.noConfusion h⟩

/-- C6 (amended): an `8:` line whose payload parses as an empty JSON
array decodes to a side-data result with a null payload, which the
aggregator silently ignores; a non-empty array payload decodes to a
side-data result carrying its first element unchanged, malformed or not. -/
theorem c6_empty_array_null_payload :
    (∀ s, json_loads s = some (Json.arr []) →
      process_streaming_line ('8' :: ':' :: s) = ⟨some "data", Json.null⟩)
  ∧ (∀ st, render_step st ⟨some "data", Json.null⟩ = Except.ok st)
  ∧ (∀ s x xs, json_loads s = some (Json.arr (x :: xs)) →
      process_streaming_line ('8' :: ':' :: s) = ⟨some "data", x⟩) := by
  refine ⟨fun s hp => ?_, fun st => rfl, fun s x xs hp => ?_⟩
  · rw [decode_eight, hp]
  · rw [decode_eight, hp]

/-- Witness for C6 (amended) at the concrete payloads `[]` and `[5]`. -/
theorem c6_empty_array_null_payload_witness :
    json_loads ("[]".toList) = some (Json.arr [])
  ∧ process_streaming_line ('8' :: ':' :: "[]".toList) = ⟨some "data", Json.null⟩
  ∧ render_step aggStart ⟨some "data", Json.null⟩ = Except.ok aggStart
  ∧ json_loads ("[5]".toList) = some (Json.arr [Json.num 5])
  ∧ process_streaming_line ('8' :: ':' :: "[5]".toList) = ⟨some "data", Json.num 5⟩ :=
  ⟨rfl, c6_empty_array_null_payload.1 ("[]".toList) (by rfl),
   c6_empty_array_null_payload.2.1 aggStart,
   rfl, c6_empty_array_null_payload.2.2 ("[5]".toList) (Json.num 5) [] (by rfl)⟩

/-- C10: a `0:` line whose payload parses as JSON of any type decodes to a
text result carrying the parsed value unchanged — the decoder never checks
that it is a string — and the aggregator's text branch feeds it straight
into `content +=`, which concatenates for a string and raises the
TypeError of Python string concatenation for a number. -/
theorem c10_text_payload_unvalidated :
    (∀ s j, json_loads s = some j →
      process_streaming_line ('0' :: ':' :: s) = ⟨some "text", j⟩)
  ∧ (∀ st s2, render_step st ⟨some "text", Json.str s2⟩
      = Except.ok { st with content := st.content ++ s2 })
  ∧ (∀ st n, render_step st ⟨some "text", Json.num n⟩
      = Except.error "can only concatenate str (not \"int\") to str") := by
  refine ⟨fun s j hp => ?_, fun st s2 => rfl, fun st n => rfl⟩
  rw [decode_zero, hp]

/-- Witness for C10 at the non-string payload `5` and the string payload
`"hi"`. -/
theorem c10_text_payload_unvalidated_witness :
    json_loads ("5".toList) = some (Json.num 5)
  ∧ process_streaming_line ('0' :: ':' :: "5".toList) = ⟨some "text", Json.num 5⟩
  ∧ render_step aggStart ⟨some "text", Json.num 5⟩
      = Except.error "can only concatenate str (not \"int\") to str"
  ∧ render_step aggStart ⟨some "text", Json.str "hi"⟩
      = Except.ok { aggStart with content := "" ++ "hi" } :=
  ⟨rfl, c10_text_payload_unvalidated.1 ("5".toList) (Json.num 5) (by rfl),
   c10_text_payload_unvalidated.2.2 aggStart 5,
   c10_text_payload_unvalidated.2.1 aggStart "hi"⟩

/-- The decoded side-data result for an event object
`\x7b"type": kind, "data": payload\x7d`, as produced by an `8:` line whose
first array element is such an object. -/
def sideResult (kind : String) (payload : Json) : StreamResult :=
  ⟨some "data", Json.obj [("type", Json.str kind), ("data", payload)]⟩

/-- Two aggregation steps in sequence. -/
def render_step2 (st : AggState) (r1 r2 : StreamResult) : Except String AggState :=
  match render_step st r1 with
  | Except.ok st1 => render_step st1 r2
  | Except.error e => Except.error e

/-- C7: side-data kinds `sources` and `suggested_questions` replace
(last write wins — after feeding sources `X` then sources `Y` the final
`sources` is `Y`'s `nodes` field), while kinds `tools` and `events` append
in arrival order (feeding tools `A` then events `B` yields
`tools = [A, B]`). -/
theorem c7_sidedata_semantics :
    (∀ st kvsX kvsY, render_step2 st
        (sideResult "sources" (Json.obj kvsX)) (sideResult "sources" (Json.obj kvsY))
      = Except.ok { st with sources := pyGetD kvsY "nodes" (Json.arr []) })
  ∧ (∀ A B, render_step2 aggStart (sideResult "tools" A) (sideResult "events" B)
      = Except.ok { aggStart with tools := [A, B] })
  ∧ (∀ st P Q, render_step2 st
        (sideResult "suggested_questions" P) (sideResult "suggested_questions" Q)
      = Except.ok { st with suggested_questions := Q }) := by
  refine ⟨fun st kvsX kvsY => rfl, fun A B => rfl, fun st P Q => rfl⟩

/-- C8 counterexample: after the stream `3:"boom"` then a sources
side-data line, the aggregation state records the error text and the late
sources, but neither the state nor the message dictionary built from it
carries any `errored` marker — the turn is not "marked as errored". -/
theorem c8_no_errored_marker_counterexample :
    render_streaming_message
        ["3:\"boom\"".toList,
         "8:[\x7b\"type\":\"sources\",\"data\":\x7b\"nodes\":[\x7b\"score\":1\x7d]\x7d\x7d]".toList]
      = Except.ok { tools := [], sources := Json.arr [Json.obj [("score", Json.num 1)]],
                    suggested_questions := Json.arr [], content := "Error: boom" }
  ∧ pyGet (final_message { tools := [], sources := Json.arr [Json.obj [("score", Json.num 1)]],
                           suggested_questions := Json.arr [], content := "Error: boom" })
      "errored" = none :=
  ⟨rfl, rfl⟩

/-- C8 (amended): consuming a stream-error event sets the turn's content to
`"Error: " + msg`, replacing whatever content had accumulated, and
processing continues — a side-data event arriving after the error is still
applied; the turn carries no errored marker. -/
theorem c8_error_replaces_and_continues :
    (∀ st msg, render_step st ⟨some "error", Json.str msg⟩
      = Except.ok { st with content := "Error: " ++ msg })
  ∧ (∀ st msg kvs, render_step2 st ⟨some "error", Json.str msg⟩
        (sideResult "sources" (Json.obj kvs))
      = Except.ok { st with content := "Error: " ++ msg,
                            sources := pyGetD kvs "nodes" (Json.arr []) }) := by
  refine ⟨fun st msg => rfl, fun st msg kvs => rfl⟩

/-- The user message dictionary appended by `send_message` (line 108). -/
def mkUserMsg (content : String) : PyDict :=
  [("role", Json.str "user"), ("content", Json.str content)]

/-- The assistant error message dictionary appended by the `except` clause
of `send_message` (line 188). -/
def mkAssistantError (desc : String) : PyDict :=
  [("role", Json.str "assistant"), ("content", Json.str ("Error: " ++ desc))]

/-- The single assistant message a call to `send_message` appends, as a
function of the transport outcome: the aggregated message on success, an
error message when the request, the stream, or the aggregation raised. -/
def turn_outcome_message : Outcome → PyDict
  | Outcome.httpError desc => mkAssistantError desc
  | Outcome.stream lines interrupt =>
    match render_streaming_message lines with
    | Except.error e => mkAssistantError e
    | Except.ok agg =>
      match interrupt with
      | some desc => mkAssistantError desc
      | none => final_message agg

/-- Closed form of `send_message`: it appends exactly the user message and
one outcome-determined assistant message, leaves the pending-file list
empty, and clears the processing flag. -/
theorem send_message_eq (st : SessionState) (m : String) (o : Outcome) :
    send_message st m o
      = { messages := st.messages ++ [mkUserMsg m, turn_outcome_message o],
          files := [], is_processing := false } := by
  obtain ⟨msgs, files, proc⟩ := st
  cases o with
  | httpError desc =>
    cases files <;>
      simp [send_message, turn_outcome_message, add_message, start_processing,
            end_processing, mkUserMsg, mkAssistantError]
  | stream lines interrupt =>
    cases h : render_streaming_message lines with
    | error e =>
      cases interrupt <;> cases files <;>
        simp [send_message, turn_outcome_message, h, add_message, start_processing,
              end_processing, mkUserMsg, mkAssistantError]
    | ok agg =>
      cases interrupt <;> cases files <;>
        simp [send_message, turn_outcome_message, h, add_message, start_processing,
              end_processing, mkUserMsg, mkAssistantError, final_message]

/-- The assistant message of every outcome carries `role = "assistant"`. -/
theorem turn_outcome_message_role (o : Outcome) :
    pyGet (turn_outcome_message o) "role" = some (Json.str "assistant") := by
  cases o with
  | httpError desc => rfl
  | stream lines interrupt =>
    simp only [turn_outcome_message]
    cases h : render_streaming_message lines with
    | error e => simp only [h]; rfl
    | ok agg => simp only [h]; cases interrupt <;> rfl

/-- C3: after `send_message` returns — by any path: success, decode or
aggregation error, transport error before or during streaming — the
processing flag is `false`; the `finally` clause always releases it. -/
theorem c3_processing_flag_released (st : SessionState) (m : String) (o : Outcome) :
    is_processing (send_message st m o) = false := by
  rw [send_message_eq]; rfl

/-- C1 is a bug in the code: `send_message` never consults the processing
flag. Called on a session whose `is_processing` is already `true`, it
still mutates history (appending the user and assistant messages of a new
turn) instead of refusing with `Busy`. -/
theorem c1_busy_turn_not_refused :
    is_processing { messages := [], files := [], is_processing := true } = true
  ∧ (send_message { messages := [], files := [], is_processing := true } "hi"
       (Outcome.stream [] none)).messages
      = [[("role", Json.str "user"), ("content", Json.str "hi")],
         [("role", Json.str "assistant"), ("content", Json.str ""),
          ("sources", Json.arr []), ("tools", Json.arr []),
          ("suggested_questions", Json.arr [])]] :=
  ⟨rfl, rfl⟩

/-- C2: every call to `send_message` appends the user message and exactly
one assistant message, whatever the event sequence and outcome; when the
transport fails — before streaming (`httpError`) or mid-stream
(`interrupt`) — the assistant message's content is `"Error: "` followed by
a failure description, and it carries no tools, sources or suggested
questions (the keys are absent, which every reader treats as empty). -/
theorem c2_exactly_one_assistant_message (st : SessionState) (m : String) (o : Outcome) :
    (∃ am, pyGet am "role" = some (Json.str "assistant") ∧
       (send_message st m o).messages = st.messages ++ [mkUserMsg m, am])
  ∧ (∀ desc, (send_message st m (Outcome.httpError desc)).messages
       = st.messages ++ [mkUserMsg m, mkAssistantError desc])
  ∧ (∀ lines desc, ∃ d, (send_message st m (Outcome.stream lines (some desc))).messages
       = st.messages ++ [mkUserMsg m, mkAssistantError d])
  ∧ (∀ desc, pyGet (mkAssistantError desc) "tools" = none
       ∧ pyGet (mkAssistantError desc) "sources" = none
       ∧ pyGet (mkAssistantError desc) "suggested_questions" = none
       ∧ pyGetD (mkAssistantError desc) "tools" (Json.arr []) = Json.arr []
       ∧ pyGetD (mkAssistantError desc) "sources" (Json.arr []) = Json.arr []
       ∧ pyGetD (mkAssistantError desc) "suggested_questions" (Json.arr [])
           = Json.arr []) := by
  refine ⟨⟨turn_outcome_message o, turn_outcome_message_role o, ?_⟩,
          fun desc => ?_, fun lines desc => ?_,
          fun desc => ⟨rfl, rfl, rfl, rfl, rfl, rfl⟩⟩
  · rw [send_message_eq]
  · rw [send_message_eq]; rfl
  · cases h : render_streaming_message lines with
    | error e =>
      refine ⟨e, ?_⟩
      rw [send_message_eq]
      simp only [turn_outcome_message, h]
    | ok agg =>
      refine ⟨desc, ?_⟩
      rw [send_message_eq]
      simp only [turn_outcome_message, h]

/-- C9: the outbound payload maps the full history to role/content pairs;
when pending files exist, the document_file annotation carrying exactly
those files is attached to the last outbound message only — every earlier
entry is a bare role/content pair with no annotations key — and after any
`send_message` call (which builds the payload) the session's pending file
list is empty. -/
theorem c9_payload_files_annotation :
    (∀ h m (f : List Json), f ≠ [] →
       build_payload (h ++ [m]) f
         = h.map outbound_message
             ++ [outbound_message m ++ [("annotations", annot_value f)]])
  ∧ (∀ h, build_payload h [] = h.map outbound_message)
  ∧ (∀ msg, pyGet (outbound_message msg) "annotations" = none)
  ∧ (∀ st me o, (send_message st me o).files = []) := by
  refine ⟨fun h m f hf => ?_, fun h => rfl, fun msg => rfl,
          fun st me o => by simp [send_message_eq]⟩
  have hfe : ¬(f.isEmpty = true) := by
    cases f with
    | nil => exact absurd rfl hf
    | cons a as => simp
  rw [build_payload, if_neg hfe]
  split
  next heq => exact absurd heq (by simp)
  next y ys heq =>
    rw [List.map_append]
    simp only [List.map_cons, List.map_nil]
    rw [List.dropLast_concat, List.getLastD_concat]

/-- Witness for C9: a one-message history with one pending file. -/
theorem c9_payload_files_annotation_witness :
    build_payload [mkUserMsg "hi"] [Json.obj [("name", Json.str "a.pdf")]]
      = [[("role", Json.str "user"), ("content", Json.str "hi"),
          ("annotations", annot_value [Json.obj [("name", Json.str "a.pdf")]])]] :=
  c9_payload_files_annotation.1 [] (mkUserMsg "hi")
    [Json.obj [("name", Json.str "a.pdf")]] (List.cons_ne_nil _ _)
